import Mathlib

/-!
Shallow embedding of the aircraft-data-scraper repository (src/main.py).

The pipeline reads a CSV into a pandas DataFrame, finds the first row whose
STATUS cell is missing or empty (the resume checkpoint), then processes the
remaining rows in batches of 20: for each row it fetches an HTML page for the
row's N-NUMBER, parses the page's tables, extracts a field map, writes the map
into the row, and flushes the whole DataFrame to the output CSV after every
batch.

Modelling choices:
* a DataFrame cell is `Option String` (`none` models NaN / a missing value);
* a row is an association list from column label to cell; a DataFrame keeps
  the column list and the row list (rows are addressed positionally, matching
  the RangeIndex of a freshly read CSV);
* the network and the HTML/table parser are external collaborators, modelled
  as an environment `FetchEnv` mapping an N-NUMBER to an `HttpResult` and an
  HTML text to parsed tables (or a raised exception);
* Python exceptions are modelled with `Except PyExc`; an uncaught exception
  propagates as `Except.error`;
* the concurrent units of one batch write to pairwise disjoint rows, so the
  batch is embedded as a sequential left-to-right fold that stops at the
  first raised exception (one linearisation of `asyncio.gather`).
-/

namespace Scrape

/-- A DataFrame cell: `none` models a missing value (NaN). -/
abbrev Cell := Option String

/-- A DataFrame row: association list from column label to cell. A label
absent from the list reads as a missing cell. -/
abbrev Row := List (String × Cell)

/-- A pandas DataFrame: column labels plus positionally indexed rows. -/
structure DF where
  cols : List String
  rows : List Row
deriving DecidableEq, Repr

/-- Read one cell of a row (`df.at[index, c]` after the row is fixed):
an absent key and a stored NaN both read as `none`. -/
def rowCell (r : Row) (c : String) : Cell := (List.lookup c r).join

/-- Write one cell of a row, replacing the first binding for the label or
appending a new binding. -/
def rowSet : Row → String → Cell → Row
  | [], c, v => [(c, v)]
  | p :: ps, c, v => if p.1 = c then (c, v) :: ps else p :: rowSet ps c v

/-- `df.at[i, c] = v` for a valid row index: updates the cell and registers
the column label if it is new (pandas creates the column, other rows read
NaN there). An out-of-range index leaves the frame unchanged; the scraper
only ever writes at indices produced by the batch loop, which are in range. -/
def dfSet (df : DF) (i : Nat) (c : String) (v : String) : DF :=
  match df.rows.get? i with
  | none => df
  | some r =>
    { cols := if df.cols.contains c then df.cols else df.cols ++ [c]
      rows := df.rows.set i (rowSet r c (some v)) }

/-- The `Scraper` object's constructor-set attributes (`Scraper.__init__`). -/
structure Scraper where
  input_file : String
  output_file : String
  columns : List String
  timeout : Nat
deriving DecidableEq, Repr

/-- The fixed field schema `self.columns` set in `Scraper.__init__`. -/
def defaultColumns : List String :=
  ["STATUS", "MANUFACTURER NAME", "MODEL", "TYPE AIRCRAFT",
   "TYPE ENGINE", "PENDING NUMBER CHANGE", "DATE CHANGE AUTHORIZED",
   "TYPE REGISTRATION", "COUNTY", "ENGINE MANUFACTURER", "ENGINE MODEL"]

/-- `Scraper.__init__`: `if not output_file` also treats the empty string as
falsy, so both `None` and `""` default the output path to the input path. -/
def Scraper.init (input_file : String) (output_file : Option String)
    (timeout : Nat) : Scraper :=
  { input_file := input_file
    output_file :=
      match output_file with
      | none => input_file
      | some s => if s = "" then input_file else s
    columns := defaultColumns
    timeout := timeout }

/-- `Series.isnull()` on one cell. -/
def isnull : Cell → Bool
  | none => true
  | some _ => false

/-- `astype(str)` on one cell: `str(nan) = "nan"`. -/
def cellStr : Cell → String
  | none => "nan"
  | some s => s

/-- The row predicate of `get_first_empty_index`:
`isnull | (astype(str).apply(len) == 0)`. -/
def statusEmpty (c : Cell) : Bool := isnull c || ((cellStr c).length == 0)

/-- `df.index[mask].tolist()` for the STATUS mask: the (positional) indices
whose STATUS cell satisfies `statusEmpty`, in order. -/
def emptyStatusIndices (df : DF) : List Nat :=
  (List.range df.rows.length).filter
    (fun i => statusEmpty (rowCell (df.rows.getD i []) "STATUS"))

/-- `Scraper.get_first_empty_index`: 0 when no column is named STATUS
(`~df.columns.isin(["STATUS"]).any()` is a numpy logical negation), else the
first index of the mask, else (IndexError on `[0]`) the DataFrame's length. -/
def get_first_empty_index (df : DF) : Nat :=
  if (df.cols.contains "STATUS") = false then 0
  else
    match emptyStatusIndices df with
    | [] => df.rows.length
    | i :: _ => i

/-- The outcome of one `session.post` attempt, as seen inside `fetch_html`:
either the request completed with an HTTP status and a body text, or an
exception was raised — aiohttp client exceptions and every other `Exception`
are distinguished only by the branch that catches them. -/
inductive HttpResult where
  | ok (status : Nat) (text : String)
  | clientError (msg : String)
  | otherError (msg : String)
deriving DecidableEq, Repr

/-- `Scraper.fetch_html`: returns the response text when the request
completes (the status code is never examined) and `None` when any exception
is raised; both `except` arms return `None`, so nothing escapes. -/
def fetch_html (s : Scraper) (r : HttpResult) : Option String :=
  match r with
  | .ok _ text => some text
  | .clientError _ => none
  | .otherError _ => none

/-- Python exceptions that the embedded pipeline can raise or catch. -/
inductive PyExc where
  | valueError
  | indexError
  | keyError
  | other (msg : String)
deriving DecidableEq, Repr

/-- A fallible Python computation: `Except.error` is an uncaught exception. -/
abbrev Py (α : Type) : Type := Except PyExc α

/-- Equality of fallible results is decidable when both sides are. -/
instance {ε α : Type} [DecidableEq ε] [DecidableEq α] :
    DecidableEq (Except ε α) := fun x y =>
  match x, y with
  | Except.error a, Except.error b =>
    if h : a = b then isTrue (by rw [h]) else isFalse (by simp [h])
  | Except.error _, Except.ok _ => isFalse (by simp)
  | Except.ok _, Except.error _ => isFalse (by simp)
  | Except.ok a, Except.ok b =>
    if h : a = b then isTrue (by rw [h]) else isFalse (by simp [h])

/-- One parsed HTML table, as `pandas.read_html` returns it: a rectangular
grid of cell strings (row major). -/
abbrev Grid := List (List String)

/-- A reshaped DataFrame inside `process_dataframe`: promoted column labels
plus the remaining value rows. -/
structure Frame where
  columns : List String
  rows : List (List String)
deriving DecidableEq, Repr

/-- The nested `process_dataframe`: transpose the grid, slice the first two
rows as `df1` (labels := row 0, values := row 1) and the rest as `df2`
(labels := row 2, values := the rows after it). When the transposed grid has
fewer than three rows, `df2.loc[2]` (or `df1.loc[0]` on an empty slice)
raises inside the `try`, which returns `None` and skips this table. -/
def process_dataframe (g : Grid) : Option (Frame × Frame) :=
  match List.transpose g with
  | r0 :: r1 :: r2 :: rest => some (⟨r0, [r1]⟩, ⟨r2, rest⟩)
  | _ => none

/-- Python `str.title()` on ASCII text: an alphabetic character is
uppercased after a non-alphabetic character (or at the start) and lowercased
after an alphabetic one; other characters pass through. -/
def titleAux : List Char → Bool → List Char
  | [], _ => []
  | c :: cs, prevAlpha =>
    if c.isAlpha then
      (if prevAlpha then c.toLower else c.toUpper) :: titleAux cs true
    else c :: titleAux cs false

/-- `column.title()`. -/
def pyTitle (s : String) : String := String.mk (titleAux s.data false)

/-- A Python dict keyed by strings, represented extensionally. -/
abbrev Dict := String → Option String

/-- The empty `dict()`. -/
def emptyDict : Dict := fun _ => none

/-- `data_dict.update(series)`: bind each label of the pair list to its
value, later pairs overriding earlier ones. -/
def dictUpdatePairs (d : Dict) (ps : List (String × String)) : Dict :=
  ps.foldl (fun acc p k => if k = p.1 then some p.2 else acc k) d

/-- `count = 1 if len(data) <= 2 else 3`. -/
def subtableCount (data : List Grid) : Nat := if data.length ≤ 2 then 1 else 3

/-- The `for i in range(count)` loop of `process_record`: index into the
parsed table list (`data[i]` raises IndexError when out of range — uncaught)
and append both halves of each table that `process_dataframe` reshapes,
skipping tables on which it returned `None`. -/
def framesUpTo (data : List Grid) (count : Nat) : Py (List Frame) :=
  (List.range count).foldlM
    (fun acc i =>
      match data.get? i with
      | none => Except.error PyExc.indexError
      | some g =>
        match process_dataframe g with
        | none => Except.ok acc
        | some (d1, d2) => Except.ok (acc ++ [d1, d2]))
    []

/-- One step of the `data_dict.update(df.loc[0])` loop: read row 0 of the
half (KeyError — uncaught — when the half has no value row) and fold its
label/value pairs into the dict. -/
def aggStep (d : Dict) (f : Frame) : Py Dict :=
  match f.rows.get? 0 with
  | none => Except.error PyExc.keyError
  | some r0 => Except.ok (dictUpdatePairs d (f.columns.zip r0))

/-- The `for df in df_list: data_dict.update(df.loc[0])` loop. -/
def aggFrames (frames : List Frame) : Py Dict :=
  frames.foldlM aggStep emptyDict

/-- The aggregate label/value map of `process_record`: classify by table
count, reshape, and collect. -/
def buildDict (data : List Grid) : Py Dict := do
  let frames ← framesUpTo data (subtableCount data)
  aggFrames frames

/-- The external collaborators of one run: the HTTP transport keyed by the
posted N-NUMBER, and the `BeautifulSoup`+`read_html` table parser keyed by
the fetched HTML (raising, e.g., ValueError when no table is found). -/
structure FetchEnv where
  http : String → HttpResult
  parse : String → Py (List Grid)

/-- `Scraper.process_record`: on fetch failure return `{}`; otherwise parse
the HTML into tables (parser exceptions propagate), build the aggregate
dict, and produce `{column: data_dict.get(column.title(), "N/A") for column
in self.columns}`. -/
def process_record (s : Scraper) (env : FetchEnv) (id_value : String) :
    Py (List (String × String)) :=
  match fetch_html s (env.http id_value) with
  | none => Except.ok []
  | some html => do
    let data ← env.parse html
    let d ← buildDict data
    pure (s.columns.map (fun c => (c, (d (pyTitle c)).getD "N/A")))

/-- The writes of `write_record`'s final loop:
`for column, value in data_dict.items(): df.at[index, column] = value`. -/
def applyWrites (df : DF) (i : Nat) (pairs : List (String × String)) : DF :=
  pairs.foldl (fun d p => dfSet d i p.1 p.2) df

/-- `Scraper.write_record`: read `df.at[index, 'N-NUMBER']` (KeyError when
the row or the column does not exist), process the record, and write every
item of the returned dict into the row. -/
def write_record (s : Scraper) (env : FetchEnv) (index : Nat) (df : DF) :
    Py DF :=
  match df.rows.get? index with
  | none => Except.error PyExc.keyError
  | some r =>
    if df.cols.contains "N-NUMBER" = false then Except.error PyExc.keyError
    else
      match process_record s env (cellStr (rowCell r "N-NUMBER")) with
      | Except.error e => Except.error e
      | Except.ok data_dict => Except.ok (applyWrites df index data_dict)

/-- One batch (`tasks = [...]; await asyncio.gather(*tasks)`): the units of
a batch write to pairwise disjoint rows, so the batch is embedded as a
sequential fold over the window's indices; the first raised exception stops
the batch and propagates, with the writes already applied kept in memory. -/
def runBatch (s : Scraper) (env : FetchEnv) (df : DF) :
    List Nat → DF × Option PyExc
  | [] => (df, none)
  | i :: rest =>
    match write_record s env i df with
    | Except.error e => (df, some e)
    | Except.ok df2 => runBatch s env df2 rest

/-- Python `range(start, stop, step)` for a positive step. -/
def pyRange3 (start stop step : Nat) : List Nat :=
  (List.range ((stop - start + step - 1) / step)).map (fun k => start + k * step)

/-- The indices of one batch window: `range(index, end_index)` with
`end_index = min(index + batch_size, total_records)` and batch size 20. -/
def batchWindow (b total : Nat) : List Nat :=
  List.range' b (min (b + 20) total - b)

/-- The run loop's state: the in-memory DataFrame and the output file's
content (`none` until the file has been written by this run). -/
structure RunState where
  mem : DF
  disk : Option DF
deriving DecidableEq, Repr

/-- How one run ends: normal completion, or the `except Exception` arm of
`gather_with_concurrency` (which only logs and returns — the interrupted
state is whatever memory and disk held at that point). -/
inductive RunResult where
  | completed (st : RunState)
  | interrupted (e : PyExc) (st : RunState)
deriving DecidableEq, Repr

/-- The batch loop of `gather_with_concurrency`: process each window, flush
the whole DataFrame to the output file after each batch (`df.to_csv`), flush
once more after the loop, and on an exception fall into the `except` arm,
which logs but performs no flush. -/
def runBatches (s : Scraper) (env : FetchEnv) (total : Nat) :
    List Nat → RunState → RunResult
  | [], st => RunResult.completed { st with disk := some st.mem }
  | b :: rest, st =>
    match runBatch s env st.mem (batchWindow b total) with
    | (mem2, some e) => RunResult.interrupted e { mem := mem2, disk := st.disk }
    | (mem2, none) =>
      runBatches s env total rest { mem := mem2, disk := some mem2 }

/-- `Scraper.gather_with_concurrency`: read the input DataFrame (`df0`, with
`disk0` the output file's prior content), locate the checkpoint, and drive
the batch loop over `range(start_index, total_records, batch_size)`. -/
def gather_with_concurrency (s : Scraper) (env : FetchEnv) (df0 : DF)
    (disk0 : Option DF) : RunResult :=
  runBatches s env df0.rows.length
    (pyRange3 (get_first_empty_index df0) df0.rows.length 20)
    { mem := df0, disk := disk0 }

/-- The scraper built by the repository's entry point
(`Scraper('data/ARMASTER11-21-23.csv', timeout=1)`). -/
def testScraper : Scraper := Scraper.init "data/ARMASTER11-21-23.csv" none 1

/-- A well-formed parsed table in the registry's layout: labels and values
alternate along a row, so the transposed grid splits into two label/value
halves. -/
def goodGrid : Grid :=
  [["Status", "Valid", "Manufacturer Name", "CESSNA"],
   ["Model", "172", "Type Aircraft", "Fixed Wing"]]

/-- An environment where every fetch completes and every document parses to
the single well-formed table. -/
def envAllGood : FetchEnv :=
  { http := fun _ => HttpResult.ok 200 "docA"
    parse := fun _ => Except.ok [goodGrid] }

/-- An environment where every fetch completes but no document contains a
parseable table, so `pd.read_html` raises ValueError. -/
def envNoTables : FetchEnv :=
  { http := fun _ => HttpResult.ok 200 "docA"
    parse := fun _ => Except.error PyExc.valueError }

/-- An environment where every fetch raises a client error (e.g. timeout). -/
def envFetchFail : FetchEnv :=
  { http := fun _ => HttpResult.clientError "timeout"
    parse := fun _ => Except.ok [goodGrid] }

/-- An environment where the fetched text echoes the N-NUMBER and only the
document of N-NUMBER "2" is structurally unparseable. -/
def envSecondBad : FetchEnv :=
  { http := fun v => HttpResult.ok 200 v
    parse := fun t =>
      if t = "2" then Except.error PyExc.valueError else Except.ok [goodGrid] }

/-- The final in-memory DataFrame of a run outcome. -/
def runMem : RunResult → DF
  | RunResult.completed st => st.mem
  | RunResult.interrupted _ st => st.mem

/-- The final output-file content of a run outcome. -/
def runDisk : RunResult → Option DF
  | RunResult.completed st => st.disk
  | RunResult.interrupted _ st => st.disk

/-- The exception that interrupted a run, when one did. -/
def runExc : RunResult → Option PyExc
  | RunResult.completed _ => none
  | RunResult.interrupted e _ => some e

/-- A two-row input dataset with empty STATUS everywhere (a fresh run). -/
def dfTwo : DF :=
  { cols := ["N-NUMBER", "STATUS"]
    rows := [[("N-NUMBER", some "1"), ("STATUS", none)],
             [("N-NUMBER", some "2"), ("STATUS", none)]] }

/-- A one-row input dataset with empty STATUS. -/
def dfOne : DF :=
  { cols := ["N-NUMBER", "STATUS"]
    rows := [[("N-NUMBER", some "1"), ("STATUS", none)]] }

/-- A dataset with no STATUS column at all. -/
def dfNoStatus : DF :=
  { cols := ["N-NUMBER"]
    rows := [[("N-NUMBER", some "1"), ("STATUS", some "")]] }

/-- A dataset whose single record has a non-empty STATUS. -/
def dfAllComplete : DF :=
  { cols := ["N-NUMBER", "STATUS"]
    rows := [[("N-NUMBER", some "1"), ("STATUS", some "Valid")]] }

/-- A dataset with row 0 complete, row 1's STATUS the empty string and
row 2's STATUS missing: the checkpoint is 1. -/
def dfW : DF :=
  { cols := ["N-NUMBER", "STATUS"]
    rows := [[("N-NUMBER", some "1"), ("STATUS", some "V")],
             [("N-NUMBER", some "2"), ("STATUS", some "")],
             [("N-NUMBER", some "3")]] }

/-- All row indices processed by one run, in processing order: the batch
windows of `range(start_index, total_records, batch_size)` concatenated. -/
def scheduledIndices (start total : Nat) : List Nat :=
  (pyRange3 start total 20).flatMap (fun b => batchWindow b total)

/-- The dataset produced by one successful `write_record` on `dfTwo`'s
row 0 in the all-good environment (used as a concrete witness value). -/
def dfTwoWritten0 : DF :=
  match write_record testScraper envAllGood 0 dfTwo with
  | Except.ok d => d
  | Except.error _ => dfTwo

/-- The final run state of a completed all-good run on `dfTwo`. -/
def stGood : RunState :=
  match gather_with_concurrency testScraper envAllGood dfTwo (some dfTwo) with
  | RunResult.completed st => st
  | RunResult.interrupted _ st => st

/-- The final run state of the run on `dfTwo` interrupted by the unparseable
second document. -/
def stBad : RunState :=
  match gather_with_concurrency testScraper envSecondBad dfTwo (some dfTwo) with
  | RunResult.completed st => st
  | RunResult.interrupted _ st => st

/-- The aggregate dict extracted from the single well-formed table. -/
def dGood : Dict :=
  match buildDict [goodGrid] with
  | Except.ok d => d
  | Except.error _ => emptyDict

/-- A 22-row fresh dataset: two batch windows, `[0, 20)` and `[20, 22)`. -/
def dfMany : DF :=
  { cols := ["N-NUMBER", "STATUS"]
    rows := (List.range 22).map
      (fun k => [("N-NUMBER", some (toString k)), ("STATUS", none)]) }

/-- An environment where only the document of N-NUMBER "21" (the second row
of the second batch) is structurally unparseable. -/
def envLastBad : FetchEnv :=
  { http := fun v => HttpResult.ok 200 v
    parse := fun t =>
      if t = "21" then Except.error PyExc.valueError
      else Except.ok [goodGrid] }

/-- The outcome of the run on `dfMany` interrupted inside its second batch. -/
def resMany : RunResult :=
  gather_with_concurrency testScraper envLastBad dfMany (some dfMany)

/-- The `(label, value)` pairs one reshaped half contributes to the
aggregate dict: its promoted labels zipped with its first value row. -/
def framePairs (f : Frame) : List (String × String) :=
  f.columns.zip (f.rows.headD [])

/-- The halves one parsed table contributes to `df_list`: both halves when
`process_dataframe` reshapes it, nothing when the reshape fails. -/
def framesOf (g : Grid) : List Frame :=
  match process_dataframe g with
  | none => []
  | some (a, b) => [a, b]

/-- The parsed tables the extractor attempts to process: the first
`subtableCount` of them. -/
def processedTables (data : List Grid) : List Grid :=
  (List.range (subtableCount data)).filterMap (fun i => data.get? i)

/-- The value a Python dict built by successive updates holds for a key:
the value of the last pair with that key, if any. -/
def lastVal (ps : List (String × String)) (k : String) : Option String :=
  ps.foldl (fun acc p => if k = p.1 then some p.2 else acc) none

/-- The two halves `process_dataframe` produces from the well-formed
table. -/
def d1W : Frame := ⟨["Status", "Model"], [["Valid", "172"]]⟩

/-- The second half of the well-formed table. -/
def d2W : Frame :=
  ⟨["Manufacturer Name", "Type Aircraft"], [["CESSNA", "Fixed Wing"]]⟩

/-- A grid whose transpose has fewer than three rows, so its reshape raises
inside `process_dataframe`'s `try` and the table is skipped. -/
def badShapeGrid : Grid := [["a"], ["b"]]

/-- A three-table document (the three-group layout). -/
def data3 : List Grid := [goodGrid, goodGrid, badShapeGrid]

/-- The aggregate dict of the well-formed table's two halves. -/
def dGoodAgg : Dict :=
  match aggFrames (framesOf goodGrid) with
  | Except.ok d => d
  | Except.error _ => emptyDict

/-- An environment where every document parses to one table of unexpected
shape: the reshape of that sub-table fails and is skipped. -/
def envBadShape : FetchEnv :=
  { http := fun _ => HttpResult.ok 200 "docA"
    parse := fun _ => Except.ok [badShapeGrid] }

/-- Filtering `range n` by a predicate false below `n` yields nothing. -/
theorem filter_range_nil (p : Nat → Bool) (n : Nat)
    (h : ∀ i, i < n → p i = false) : (List.range n).filter p = [] := by
  refine List.filter_eq_nil_iff.mpr ?_
  intro a ha
  simp [h a (List.mem_range.mp ha)]

/-- Filtering `range n` by a predicate that first holds at `k < n` yields a
list headed by `k`. -/
theorem filter_range_head (p : Nat → Bool) (n k : Nat) (hk : k < n)
    (hb : ∀ i, i < k → p i = false) (ht : p k = true) :
    ∃ t, (List.range n).filter p = k :: t := by
  have hsplit : List.range n = List.range' 0 k ++ List.range' k (n - k) := by
    have happ := List.range'_append 0 k (n - k) 1
    rw [List.range_eq_range']
    have h1 : 0 + 1 * k = k := by omega
    have h2 : n - k + k = n := by omega
    rw [h1, h2] at happ
    exact happ.symm
  have hnil : (List.range' 0 k).filter p = [] := by
    refine List.filter_eq_nil_iff.mpr ?_
    intro a ha
    obtain ⟨i, hi, rfl⟩ := List.mem_range'.mp ha
    simpa using hb i hi
  have hcons : List.range' k (n - k) = k :: List.range' (k + 1) (n - k - 1) := by
    have h3 : n - k = (n - k - 1) + 1 := by omega
    conv_lhs => rw [h3]
    rw [List.range'_succ]
  refine ⟨(List.range' (k + 1) (n - k - 1)).filter p, ?_⟩
  rw [hsplit, List.filter_append, hnil, hcons, List.filter_cons, if_pos ht]
  rfl

/-- Claim C1: `get_first_empty_index` returns the index of the first record
whose STATUS cell is missing or empty (exactly `k` when rows `[0, k)` are
complete and row `k` is not), the dataset's length when every record has a
non-empty STATUS, and 0 when there is no STATUS column at all; moreover the
row predicate it uses holds exactly on a missing or empty-string STATUS. -/
theorem C1_checkpoint_locator (df : DF) (k : Nat) :
    (df.cols.contains "STATUS" = false → get_first_empty_index df = 0) ∧
    (df.cols.contains "STATUS" = true →
      (∀ i, i < df.rows.length →
        statusEmpty (rowCell (df.rows.getD i []) "STATUS") = false) →
      get_first_empty_index df = df.rows.length) ∧
    (df.cols.contains "STATUS" = true → k < df.rows.length →
      (∀ i, i < k →
        statusEmpty (rowCell (df.rows.getD i []) "STATUS") = false) →
      statusEmpty (rowCell (df.rows.getD k []) "STATUS") = true →
      get_first_empty_index df = k) ∧
    (∀ c : Cell, statusEmpty c = true ↔ (c = none ∨ c = some "")) := by
  refine ⟨?_, ?_, ?_, ?_⟩
  · intro h
    unfold get_first_empty_index
    rw [if_pos h]
  · intro h hall
    have hnil : emptyStatusIndices df = [] := filter_range_nil _ _ hall
    unfold get_first_empty_index
    rw [if_neg (by simpa using h), hnil]
  · intro h hk hb ht
    obtain ⟨t, hfil⟩ := filter_range_head
      (fun i => statusEmpty (rowCell (df.rows.getD i []) "STATUS"))
      df.rows.length k hk hb ht
    have hind : emptyStatusIndices df = k :: t := hfil
    unfold get_first_empty_index
    rw [if_neg (by simpa using h), hind]
  · intro c
    cases c with
    | none => simp [statusEmpty, isnull]
    | some s =>
      cases s with
      | mk data =>
        simp [statusEmpty, isnull, cellStr, String.length,
          List.length_eq_zero, String.ext_iff]

/-- Witness for C1 at concrete datasets: no STATUS column, an all-complete
dataset, and a dataset whose first incomplete row is 1. -/
theorem C1_checkpoint_locator_witness :
    get_first_empty_index dfNoStatus = 0 ∧
    get_first_empty_index dfAllComplete = 1 ∧
    get_first_empty_index dfW = 1 :=
  ⟨(C1_checkpoint_locator dfNoStatus 0).1 (by decide),
   (C1_checkpoint_locator dfAllComplete 0).2.1 (by decide) (by decide),
   (C1_checkpoint_locator dfW 1).2.2.1 (by decide) (by decide) (by decide)
     (by decide)⟩

/-- Counterexample to claim C4 as stated: a completed response with the
non-success HTTP status 500 does not yield the failure outcome `None` —
`fetch_html` never examines the status and returns the body text. -/
theorem C4_fetch_html_status_counterexample :
    fetch_html testScraper (HttpResult.ok 500 "Server Error") =
      some "Server Error" ∧
    fetch_html testScraper (HttpResult.ok 500 "Server Error") ≠ none :=
  ⟨rfl, by decide⟩

/-- Claim C4 (amended): `fetch_html` performs one request and returns a typed
outcome rather than raising — its total return type is `Option String` — and
any exception raised during the request (timeout, connection error, any other
`Exception`) yields `None`; but a completed response yields its body text
whatever the HTTP status, since the status code is never inspected. -/
theorem C4_fetch_html_boundary (s : Scraper) (st : Nat) (txt m : String) :
    fetch_html s (HttpResult.ok st txt) = some txt ∧
    fetch_html s (HttpResult.clientError m) = none ∧
    fetch_html s (HttpResult.otherError m) = none :=
  ⟨rfl, rfl, rfl⟩

/-- Two scrapers with the same field schema fetch identically (neither the
timeout nor the file paths are consulted by `fetch_html`). -/
theorem fetch_html_congr (s1 s2 : Scraper) (r : HttpResult) :
    fetch_html s1 r = fetch_html s2 r := by
  cases r <;> rfl

/-- Two scrapers with the same field schema extract identically. -/
theorem process_record_congr (s1 s2 : Scraper) (h : s1.columns = s2.columns)
    (env : FetchEnv) (idv : String) :
    process_record s1 env idv = process_record s2 env idv := by
  unfold process_record
  rw [fetch_html_congr s1 s2 (env.http idv), h]

/-- Two scrapers with the same field schema write a record identically. -/
theorem write_record_congr (s1 s2 : Scraper) (h : s1.columns = s2.columns)
    (env : FetchEnv) (i : Nat) (df : DF) :
    write_record s1 env i df = write_record s2 env i df := by
  unfold write_record
  simp only [process_record_congr s1 s2 h]

/-- Two scrapers with the same field schema process a batch identically. -/
theorem runBatch_congr (s1 s2 : Scraper) (h : s1.columns = s2.columns)
    (env : FetchEnv) (idxs : List Nat) (df : DF) :
    runBatch s1 env df idxs = runBatch s2 env df idxs := by
  induction idxs generalizing df with
  | nil => rfl
  | cons i rest ih =>
    unfold runBatch
    rw [write_record_congr s1 s2 h]
    cases write_record s2 env i df with
    | error e => rfl
    | ok df2 => exact ih df2

/-- Two scrapers with the same field schema run their batch loops
identically. -/
theorem runBatches_congr (s1 s2 : Scraper) (h : s1.columns = s2.columns)
    (env : FetchEnv) (total : Nat) (starts : List Nat) (st : RunState) :
    runBatches s1 env total starts st = runBatches s2 env total starts st := by
  induction starts generalizing st with
  | nil => rfl
  | cons b rest ih =>
    unfold runBatches
    rw [runBatch_congr s1 s2 h]
    cases runBatch s2 env st.mem (batchWindow b total) with
    | mk mem2 exc =>
      cases exc with
      | none => exact ih _
      | some e => rfl

/-- Two scrapers with the same field schema produce the same whole-run
outcome. -/
theorem gather_congr (s1 s2 : Scraper) (h : s1.columns = s2.columns)
    (env : FetchEnv) (df0 : DF) (disk0 : Option DF) :
    gather_with_concurrency s1 env df0 disk0 =
      gather_with_concurrency s2 env df0 disk0 := by
  unfold gather_with_concurrency
  exact runBatches_congr s1 s2 h env _ _ _

/-- Claim C10: the timeout passed to the constructor is stored on the object
and never read again — it is not applied to any request, and two runs that
differ only in the timeout argument fetch, extract and produce identical
outcomes on every input. -/
theorem C10_timeout_noninterference (input : String) (out : Option String)
    (t1 t2 : Nat) (env : FetchEnv) (r : HttpResult) (idv : String)
    (i : Nat) (df0 : DF) (disk0 : Option DF) :
    (Scraper.init input out t1).timeout = t1 ∧
    fetch_html (Scraper.init input out t1) r =
      fetch_html (Scraper.init input out t2) r ∧
    process_record (Scraper.init input out t1) env idv =
      process_record (Scraper.init input out t2) env idv ∧
    write_record (Scraper.init input out t1) env i df0 =
      write_record (Scraper.init input out t2) env i df0 ∧
    gather_with_concurrency (Scraper.init input out t1) env df0 disk0 =
      gather_with_concurrency (Scraper.init input out t2) env df0 disk0 :=
  ⟨rfl,
   fetch_html_congr (Scraper.init input out t1) (Scraper.init input out t2) r,
   process_record_congr (Scraper.init input out t1) (Scraper.init input out t2)
     rfl env idv,
   write_record_congr (Scraper.init input out t1) (Scraper.init input out t2)
     rfl env i df0,
   gather_congr (Scraper.init input out t1) (Scraper.init input out t2)
     rfl env df0 disk0⟩

/-- A cell write at row `i` leaves every other row untouched. -/
theorem dfSet_rows_other (df : DF) (i : Nat) (c v : String) (j : Nat)
    (hne : j ≠ i) : (dfSet df i c v).rows.get? j = df.rows.get? j := by
  unfold dfSet
  cases df.rows.get? i with
  | none => rfl
  | some r =>
    simp only
    rw [List.get?_eq_getElem?, List.get?_eq_getElem?,
      List.getElem?_set_ne (fun he => hne he.symm)]

/-- A cell write preserves the number of rows. -/
theorem dfSet_rows_length (df : DF) (i : Nat) (c v : String) :
    (dfSet df i c v).rows.length = df.rows.length := by
  unfold dfSet
  cases df.rows.get? i with
  | none => rfl
  | some r => simp [List.length_set]

/-- Writing a whole field map into row `i` leaves every other row
untouched. -/
theorem applyWrites_rows_other (pairs : List (String × String)) (df : DF)
    (i : Nat) (j : Nat) (hne : j ≠ i) :
    (applyWrites df i pairs).rows.get? j = df.rows.get? j := by
  induction pairs generalizing df with
  | nil => rfl
  | cons p rest ih =>
    unfold applyWrites
    rw [List.foldl_cons]
    calc ((rest.foldl (fun d q => dfSet d i q.1 q.2) (dfSet df i p.1 p.2)).rows.get? j)
        = (dfSet df i p.1 p.2).rows.get? j := ih (dfSet df i p.1 p.2)
      _ = df.rows.get? j := dfSet_rows_other df i p.1 p.2 j hne

/-- Writing a whole field map preserves the number of rows. -/
theorem applyWrites_rows_length (pairs : List (String × String)) (df : DF)
    (i : Nat) : (applyWrites df i pairs).rows.length = df.rows.length := by
  induction pairs generalizing df with
  | nil => rfl
  | cons p rest ih =>
    unfold applyWrites
    rw [List.foldl_cons]
    calc ((rest.foldl (fun d q => dfSet d i q.1 q.2) (dfSet df i p.1 p.2)).rows.length)
        = (dfSet df i p.1 p.2).rows.length := ih (dfSet df i p.1 p.2)
      _ = df.rows.length := dfSet_rows_length df i p.1 p.2

/-- A unit that completes writes only its own row. -/
theorem write_record_rows_other (s : Scraper) (env : FetchEnv) (i : Nat)
    (df df2 : DF) (hok : write_record s env i df = Except.ok df2) (j : Nat)
    (hne : j ≠ i) : df2.rows.get? j = df.rows.get? j := by
  unfold write_record at hok
  cases hget : df.rows.get? i with
  | none => rw [hget] at hok; cases hok
  | some r =>
    simp only [hget] at hok
    by_cases hc : df.cols.contains "N-NUMBER" = false
    · rw [if_pos hc] at hok; cases hok
    · rw [if_neg hc] at hok
      cases hp : process_record s env (cellStr (rowCell r "N-NUMBER")) with
      | error e => rw [hp] at hok; cases hok
      | ok dd =>
        rw [hp] at hok
        cases hok
        exact applyWrites_rows_other dd df i j hne

/-- A unit that completes preserves the number of rows. -/
theorem write_record_rows_length (s : Scraper) (env : FetchEnv) (i : Nat)
    (df df2 : DF) (hok : write_record s env i df = Except.ok df2) :
    df2.rows.length = df.rows.length := by
  unfold write_record at hok
  cases hget : df.rows.get? i with
  | none => rw [hget] at hok; cases hok
  | some r =>
    simp only [hget] at hok
    by_cases hc : df.cols.contains "N-NUMBER" = false
    · rw [if_pos hc] at hok; cases hok
    · rw [if_neg hc] at hok
      cases hp : process_record s env (cellStr (rowCell r "N-NUMBER")) with
      | error e => rw [hp] at hok; cases hok
      | ok dd =>
        rw [hp] at hok
        cases hok
        exact applyWrites_rows_length dd df i

/-- A batch leaves every row outside its index window untouched, whether or
not it is interrupted. -/
theorem runBatch_rows_other (s : Scraper) (env : FetchEnv)
    (idxs : List Nat) (df : DF) (j : Nat) (hj : j ∉ idxs) :
    (runBatch s env df idxs).1.rows.get? j = df.rows.get? j := by
  induction idxs generalizing df with
  | nil => rfl
  | cons i rest ih =>
    unfold runBatch
    cases hw : write_record s env i df with
    | error e => rfl
    | ok df2 =>
      have hji : j ≠ i := fun he => hj (he ▸ List.mem_cons_self i rest)
      have hjr : j ∉ rest := fun hr => hj (List.mem_cons_of_mem i hr)
      calc (runBatch s env df2 rest).1.rows.get? j
          = df2.rows.get? j := ih df2 hjr
        _ = df.rows.get? j := write_record_rows_other s env i df df2 hw j hji

/-- A batch preserves the number of rows, whether or not it is
interrupted. -/
theorem runBatch_rows_length (s : Scraper) (env : FetchEnv)
    (idxs : List Nat) (df : DF) :
    (runBatch s env df idxs).1.rows.length = df.rows.length := by
  induction idxs generalizing df with
  | nil => rfl
  | cons i rest ih =>
    unfold runBatch
    cases hw : write_record s env i df with
    | error e => rfl
    | ok df2 =>
      calc (runBatch s env df2 rest).1.rows.length
          = df2.rows.length := ih df2
        _ = df.rows.length := write_record_rows_length s env i df df2 hw

/-- Membership bounds for one batch window. -/
theorem batchWindow_mem {b total a : Nat} (h : a ∈ batchWindow b total) :
    b ≤ a ∧ a < b + 20 ∧ a < total := by
  unfold batchWindow at h
  obtain ⟨i, hi, rfl⟩ := List.mem_range'.mp h
  omega

/-- Conversely, an index inside the window's bounds is in the window. -/
theorem batchWindow_mem_of {b total a : Nat} (h1 : b ≤ a) (h2 : a < b + 20)
    (h3 : a < total) : a ∈ batchWindow b total := by
  unfold batchWindow
  refine List.mem_range'.mpr ⟨a - b, by omega, by omega⟩

/-- No row index is scheduled twice in one run: the batch windows are
pairwise disjoint and each is duplicate-free. -/
theorem scheduledIndices_nodup (start total : Nat) :
    (scheduledIndices start total).Nodup := by
  unfold scheduledIndices
  rw [List.nodup_flatMap]
  constructor
  · intro b _
    exact List.nodup_range' _ _
  · unfold pyRange3
    rw [List.pairwise_map]
    refine List.Pairwise.imp ?_ (List.pairwise_lt_range _)
    intro k1 k2 hlt a ha1 ha2
    have hb1 := batchWindow_mem ha1
    have hb2 := batchWindow_mem ha2
    omega

/-- Every remaining row index is scheduled in exactly one batch of the run:
it lies in the window starting at its own batch boundary. -/
theorem scheduledIndices_covers (start total i : Nat) (h1 : start ≤ i)
    (h2 : i < total) : i ∈ scheduledIndices start total := by
  unfold scheduledIndices
  rw [List.mem_flatMap]
  refine ⟨start + ((i - start) / 20) * 20, ?_, ?_⟩
  · unfold pyRange3
    rw [List.mem_map]
    refine ⟨(i - start) / 20, List.mem_range.mpr ?_, rfl⟩
    have := Nat.div_le_div_right (c := 20) (Nat.sub_le_sub_right (Nat.le_of_lt_succ (Nat.lt_succ_of_lt h2)) start)
    omega
  · refine batchWindow_mem_of ?_ ?_ h2
    · have := Nat.div_mul_le_self (i - start) 20
      omega
    · have h4 := Nat.div_add_mod (i - start) 20
      have h5 : (i - start) % 20 < 20 := Nat.mod_lt _ (by omega)
      omega

/-- Claim C5: when the fetch of a row's N-NUMBER fails, `process_record`
yields the empty field map, `write_record` returns the dataset unchanged
(every cell of the row keeps its value, so an incomplete record stays
incomplete and is found again by the next run's checkpoint scan), and no
retry happens within the run because every remaining row index is scheduled
exactly once. -/
theorem C5_transport_failure_frame (s : Scraper) (env : FetchEnv)
    (i : Nat) (df : DF) (r : Row) (start total j : Nat) :
    (fetch_html s (env.http (cellStr (rowCell r "N-NUMBER"))) = none →
      process_record s env (cellStr (rowCell r "N-NUMBER")) = Except.ok []) ∧
    (df.rows.get? i = some r →
      df.cols.contains "N-NUMBER" = true →
      fetch_html s (env.http (cellStr (rowCell r "N-NUMBER"))) = none →
      write_record s env i df = Except.ok df) ∧
    (scheduledIndices start total).Nodup ∧
    (start ≤ j → j < total → j ∈ scheduledIndices start total) := by
  refine ⟨?_, ?_, scheduledIndices_nodup start total,
    scheduledIndices_covers start total j⟩
  · intro hf
    unfold process_record
    rw [hf]
  · intro hr hc hf
    have hp : process_record s env (cellStr (rowCell r "N-NUMBER")) =
        Except.ok [] := by
      unfold process_record
      rw [hf]
    unfold write_record
    rw [hr]
    simp only [hc, hp]
    rfl

/-- Witness for C5: a concrete row whose fetch times out is left byte-for-
byte unchanged, and the schedule of a 45-row run from index 3 is
duplicate-free and covers index 27. -/
theorem C5_transport_failure_frame_witness :
    process_record testScraper envFetchFail "1" = Except.ok [] ∧
    write_record testScraper envFetchFail 0 dfOne = Except.ok dfOne ∧
    (scheduledIndices 3 45).Nodup ∧ 27 ∈ scheduledIndices 3 45 :=
  ⟨(C5_transport_failure_frame testScraper envFetchFail 0 dfOne
      [("N-NUMBER", some "1"), ("STATUS", none)] 3 45 27).1 (by decide),
   (C5_transport_failure_frame testScraper envFetchFail 0 dfOne
      [("N-NUMBER", some "1"), ("STATUS", none)] 3 45 27).2.1
     (by decide) (by decide) (by decide),
   (C5_transport_failure_frame testScraper envFetchFail 0 dfOne
      [("N-NUMBER", some "1"), ("STATUS", none)] 3 45 27).2.2.1,
   (C5_transport_failure_frame testScraper envFetchFail 0 dfOne
      [("N-NUMBER", some "1"), ("STATUS", none)] 3 45 27).2.2.2
     (by decide) (by decide)⟩

/-- Counterexample to claim C8 as stated: in a one-row dataset whose fetch
fails, the batch window is `[0]` but the batch mutates no row at all — the
set of mutated rows is a strict subset of the window, not equal to it. -/
theorem C8_batch_disjointness_counterexample :
    batchWindow 0 1 = [0] ∧
    runBatch testScraper envFetchFail dfOne (batchWindow 0 1) =
      (dfOne, none) := by decide

/-- Claim C8 (amended): each concurrent unit writes only its own row, so the
set of rows mutated by a batch is contained in its window — no row outside
the window is ever touched — but a row whose fetch fails is not written at
all, so the mutated set can be a strict subset of the window. -/
theorem C8_batch_disjointness (s : Scraper) (env : FetchEnv) (df df2 : DF)
    (i j : Nat) (idxs : List Nat) :
    (write_record s env i df = Except.ok df2 → j ≠ i →
      df2.rows.get? j = df.rows.get? j) ∧
    (j ∉ idxs → (runBatch s env df idxs).1.rows.get? j = df.rows.get? j) :=
  ⟨fun hok hne => write_record_rows_other s env i df df2 hok j hne,
   fun hj => runBatch_rows_other s env idxs df j hj⟩

/-- Witness for C8 at a concrete batch: writing row 0 of `dfTwo` leaves
row 1 unchanged, and a batch over rows 0 and 1 leaves index 5 unchanged. -/
theorem C8_batch_disjointness_witness :
    dfTwoWritten0.rows.get? 1 = dfTwo.rows.get? 1 ∧
    (runBatch testScraper envAllGood dfTwo [0, 1]).1.rows.get? 5 =
      dfTwo.rows.get? 5 :=
  ⟨(C8_batch_disjointness testScraper envAllGood dfTwo dfTwoWritten0 0 1
      []).1 (by decide) (by decide),
   (C8_batch_disjointness testScraper envAllGood dfTwo dfTwo 0 5 [0, 1]).2
     (by decide)⟩

/-- Claim C9: every flush writes the entire in-memory dataset, so a run that
completes ends with the output file equal to the full in-memory dataset (all
rows, with the row count of the input), and whenever a run is interrupted
while the flush invariant held at entry, the on-disk copy is a full snapshot
that can differ from memory only at rows of the single in-flight batch's
window. -/
theorem C9_full_flush (s : Scraper) (env : FetchEnv) (total : Nat)
    (starts : List Nat) (st st' : RunState) (e : PyExc) :
    (runBatches s env total starts st = RunResult.completed st' →
      st'.disk = some st'.mem ∧
      st'.mem.rows.length = st.mem.rows.length) ∧
    (st.disk = some st.mem →
      runBatches s env total starts st = RunResult.interrupted e st' →
      ∃ b ∈ starts, ∃ dk : DF, st'.disk = some dk ∧
        st'.mem.rows.length = dk.rows.length ∧
        ∀ j, j ∉ batchWindow b total →
          st'.mem.rows.get? j = dk.rows.get? j) := by
  induction starts generalizing st with
  | nil =>
    constructor
    · intro hc
      unfold runBatches at hc
      cases hc
      exact ⟨rfl, rfl⟩
    · intro _ hi
      unfold runBatches at hi
      cases hi
  | cons b rest ih =>
    constructor
    · intro hc
      unfold runBatches at hc
      cases hrb : runBatch s env st.mem (batchWindow b total) with
      | mk mem2 exc =>
        rw [hrb] at hc
        cases exc with
        | some e2 => cases hc
        | none =>
          have hlen : mem2.rows.length = st.mem.rows.length := by
            have := runBatch_rows_length s env (batchWindow b total) st.mem
            rw [hrb] at this
            exact this
          obtain ⟨h1, h2⟩ := (ih { mem := mem2, disk := some mem2 }).1 hc
          exact ⟨h1, by rw [h2]; exact hlen⟩
    · intro hpre hi
      unfold runBatches at hi
      cases hrb : runBatch s env st.mem (batchWindow b total) with
      | mk mem2 exc =>
        rw [hrb] at hi
        cases exc with
        | some e2 =>
          cases hi
          refine ⟨b, List.mem_cons_self b rest, st.mem, hpre, ?_, ?_⟩
          · have := runBatch_rows_length s env (batchWindow b total) st.mem
            rw [hrb] at this
            exact this
          · intro j hj
            have := runBatch_rows_other s env (batchWindow b total) st.mem j hj
            rw [hrb] at this
            exact this
        | none =>
          obtain ⟨b2, hb2, dk, hdk⟩ :=
            (ih { mem := mem2, disk := some mem2 }).2 rfl hi
          exact ⟨b2, List.mem_cons_of_mem b hb2, dk, hdk⟩

/-- Witness for C9 on concrete runs: the completed all-good run ends with
disk equal to memory, and the interrupted run's disk is a full two-row
snapshot differing from memory only inside the in-flight window. -/
theorem C9_full_flush_witness :
    (stGood.disk = some stGood.mem ∧
      stGood.mem.rows.length = dfTwo.rows.length) ∧
    (∃ b ∈ pyRange3 0 2 20, ∃ dk : DF, stBad.disk = some dk ∧
      stBad.mem.rows.length = dk.rows.length ∧
      ∀ j, j ∉ batchWindow b 2 →
        stBad.mem.rows.get? j = dk.rows.get? j) :=
  ⟨(C9_full_flush testScraper envAllGood 2 (pyRange3 0 2 20)
      { mem := dfTwo, disk := some dfTwo } stGood PyExc.valueError).1
     (by decide),
   (C9_full_flush testScraper envSecondBad 2 (pyRange3 0 2 20)
      { mem := dfTwo, disk := some dfTwo } stBad PyExc.valueError).2
     (by decide) (by decide)⟩

/-- Claim C6: for a document whose fetch, table parse and dict aggregation
all complete, the returned field map has exactly the schema's columns as
keys, in schema order; a schema column whose title-cased name is absent from
the aggregate dict is bound to the "N/A" sentinel, one that is present is
bound to its extracted value, and the extraction succeeds no matter which
schema fields the document happens to contain. -/
theorem C6_sentinel_completeness (s : Scraper) (env : FetchEnv)
    (idv txt : String) (st0 : Nat) (data : List Grid) (d : Dict) :
    env.http idv = HttpResult.ok st0 txt →
    env.parse txt = Except.ok data →
    buildDict data = Except.ok d →
    process_record s env idv =
      Except.ok (s.columns.map (fun c => (c, (d (pyTitle c)).getD "N/A"))) ∧
    (s.columns.map (fun c => (c, (d (pyTitle c)).getD "N/A"))).map Prod.fst
      = s.columns ∧
    (∀ c2, c2 ∈ s.columns → d (pyTitle c2) = none →
      (c2, "N/A") ∈ s.columns.map (fun c => (c, (d (pyTitle c)).getD "N/A"))) ∧
    (∀ c2 v, c2 ∈ s.columns → d (pyTitle c2) = some v →
      (c2, v) ∈ s.columns.map (fun c => (c, (d (pyTitle c)).getD "N/A"))) := by
  intro hh hp hb
  refine ⟨?_, ?_, ?_, ?_⟩
  · unfold process_record fetch_html
    rw [hh]
    simp only [bind, Except.bind, pure, hp, hb]
    rfl
  · rw [List.map_map]
    exact List.map_id'' (fun x => rfl) _
  · intro c2 hc2 hnone
    exact List.mem_map.mpr ⟨c2, hc2, by rw [hnone]; rfl⟩
  · intro c2 v hc2 hsome
    exact List.mem_map.mpr ⟨c2, hc2, by rw [hsome]; rfl⟩

/-- Witness for C6 on the concrete all-good environment and document. -/
theorem C6_sentinel_completeness_witness :
    process_record testScraper envAllGood "1" =
      Except.ok (testScraper.columns.map
        (fun c => (c, (dGood (pyTitle c)).getD "N/A"))) ∧
    (testScraper.columns.map
      (fun c => (c, (dGood (pyTitle c)).getD "N/A"))).map Prod.fst
      = testScraper.columns ∧
    (∀ c2, c2 ∈ testScraper.columns → dGood (pyTitle c2) = none →
      (c2, "N/A") ∈ testScraper.columns.map
        (fun c => (c, (dGood (pyTitle c)).getD "N/A"))) ∧
    (∀ c2 v, c2 ∈ testScraper.columns → dGood (pyTitle c2) = some v →
      (c2, v) ∈ testScraper.columns.map
        (fun c => (c, (dGood (pyTitle c)).getD "N/A"))) :=
  C6_sentinel_completeness testScraper envAllGood "1" "docA" 200 [goodGrid]
    dGood rfl rfl rfl

/-- Claim C3 evaluated at its failing input: the run on `dfMany` is
interrupted inside the second batch after row 20's fetch completed. The
first batch's flush is durable on disk (rows 0 and 19 show the extracted
STATUS), but the `except` arm writes nothing: row 20's completed fetch is
present in memory and absent from the on-disk copy, and the exit state has
disk ≠ memory — the "one final flush" promised by the spec (and by the
code's own log message) never happens. -/
theorem C3_interruption_flush_bug :
    runExc resMany = some PyExc.valueError ∧
    rowCell (((runDisk resMany).getD dfMany).rows.getD 0 []) "STATUS"
      = some "Valid" ∧
    rowCell (((runDisk resMany).getD dfMany).rows.getD 19 []) "STATUS"
      = some "Valid" ∧
    rowCell (((runDisk resMany).getD dfMany).rows.getD 20 []) "STATUS"
      = none ∧
    rowCell ((runMem resMany).rows.getD 20 []) "STATUS" = some "Valid" ∧
    runDisk resMany ≠ some (runMem resMany) := by decide

/-- Looking up the first `m` indices of a list yields its first `m`
elements. -/
theorem filterMap_range_get (l : List Grid) (m : Nat) :
    (List.range m).filterMap (fun i => l.get? i) = l.take m := by
  induction m with
  | zero => simp
  | succ k ih =>
    rw [List.range_succ, List.filterMap_append, ih, List.take_succ]
    congr 1
    cases h : l.get? k with
    | none =>
      rw [List.get?_eq_getElem?] at h
      simp [List.filterMap_cons, h, List.get?_eq_getElem?]
    | some g =>
      rw [List.get?_eq_getElem?] at h
      simp [List.filterMap_cons, h, List.get?_eq_getElem?]

/-- The table-processing loop never raises when the classified count is
within bounds, and collects exactly the halves of the processed tables in
order. -/
theorem framesUpTo_ok (l : List Grid) (m : Nat) (hm : m ≤ l.length) :
    framesUpTo l m = Except.ok ((l.take m).flatMap framesOf) := by
  induction m with
  | zero => rfl
  | succ k ih =>
    unfold framesUpTo at ih ⊢
    rw [List.range_succ, List.foldlM_append, ih (by omega)]
    have hk : k < l.length := by omega
    cases hget : l.get? k with
    | none =>
      rw [List.get?_eq_getElem?] at hget
      rw [List.getElem?_eq_none_iff] at hget
      omega
    | some g =>
      simp only [bind, Except.bind, List.foldlM_cons, List.foldlM_nil, hget]
      rw [List.take_succ]
      rw [List.get?_eq_getElem?] at hget
      rw [List.flatMap_append]
      cases hpd : process_dataframe g with
      | none => simp [hget, hpd, framesOf, bind, Except.bind, pure, Except.pure]
      | some ab =>
        cases ab with
        | mk a b =>
          simp [hget, hpd, framesOf, bind, Except.bind, pure, Except.pure]

/-- Applying a dict update pointwise: the updated dict folds the new pairs
over the old value. -/
theorem dictUpdatePairs_apply (d : Dict) (ps : List (String × String))
    (k : String) :
    dictUpdatePairs d ps k =
      ps.foldl (fun acc p => if k = p.1 then some p.2 else acc) (d k) := by
  induction ps generalizing d with
  | nil => rfl
  | cons p rest ih =>
    unfold dictUpdatePairs
    rw [List.foldl_cons, List.foldl_cons]
    exact ih (fun k2 => if k2 = p.1 then some p.2 else d k2)

/-- The aggregation loop, started from any dict, computes the last-value
fold of all contributed pairs over the starting dict. -/
theorem aggFrames_go (fs : List Frame) (d0 d : Dict)
    (h : fs.foldlM aggStep d0 = Except.ok d) (k : String) :
    d k = (fs.flatMap framePairs).foldl
      (fun acc p => if k = p.1 then some p.2 else acc) (d0 k) := by
  induction fs generalizing d0 with
  | nil =>
    rw [List.foldlM_nil] at h
    cases h
    rfl
  | cons f rest ih =>
    rw [List.foldlM_cons] at h
    cases hr0 : f.rows.get? 0 with
    | none =>
      rw [List.get?_eq_getElem?] at hr0
      simp [aggStep, hr0, bind, Except.bind] at h
    | some r0 =>
      rw [List.get?_eq_getElem?] at hr0
      simp only [aggStep, List.get?_eq_getElem?, hr0, bind, Except.bind] at h
      have hrec := ih (dictUpdatePairs d0 (f.columns.zip r0)) h
      cases hrows : f.rows with
      | nil => rw [hrows] at hr0; simp at hr0
      | cons a t =>
        rw [hrows] at hr0
        simp only [List.getElem?_cons_zero, Option.some.injEq] at hr0
        subst hr0
        rw [List.flatMap_cons, List.foldl_append]
        rw [hrec, dictUpdatePairs_apply]
        unfold framePairs
        rw [hrows]
        rfl

/-- The aggregate dict of a completed aggregation maps each key to the last
value contributed for it. -/
theorem aggFrames_spec (fs : List Frame) (d : Dict)
    (h : aggFrames fs = Except.ok d) (k : String) :
    d k = lastVal (fs.flatMap framePairs) k :=
  aggFrames_go fs emptyDict d h k

/-- Claim C7: the extractor processes exactly one sub-table when at most two
parsed tables are present and all three when three are present; a sub-table
that reshapes successfully is transposed and split at the fixed header row
into two halves whose first rows become the labels and are dropped; the
processing loop collects the halves of all processed tables in order without
raising, and the aggregate dict maps each label to the last value collected
for it. -/
theorem C7_subtable_classification (data : List Grid) (g : Grid)
    (d1 d2 : Frame) (fs : List Frame) (d : Dict) (k : String) :
    (1 ≤ data.length → data.length ≤ 2 →
      subtableCount data = 1 ∧ processedTables data = data.take 1) ∧
    (data.length = 3 →
      subtableCount data = 3 ∧ processedTables data = data) ∧
    (process_dataframe g = some (d1, d2) →
      3 ≤ (List.transpose g).length ∧
      (List.transpose g).take 2 = d1.columns :: d1.rows ∧
      (List.transpose g).drop 2 = d2.columns :: d2.rows) ∧
    (subtableCount data ≤ data.length →
      framesUpTo data (subtableCount data) =
        Except.ok ((data.take (subtableCount data)).flatMap framesOf)) ∧
    (aggFrames fs = Except.ok d → d k = lastVal (fs.flatMap framePairs) k) := by
  refine ⟨?_, ?_, ?_, fun hm => framesUpTo_ok data _ hm,
    fun h => aggFrames_spec fs d h k⟩
  · intro _ h2
    have hc : subtableCount data = 1 := by
      unfold subtableCount
      rw [if_pos h2]
    exact ⟨hc, by unfold processedTables; rw [hc, filterMap_range_get]⟩
  · intro h3
    have hc : subtableCount data = 3 := by
      unfold subtableCount
      rw [if_neg (by omega)]
    refine ⟨hc, ?_⟩
    unfold processedTables
    rw [hc, filterMap_range_get, ← h3, List.take_length]
  · intro hpd
    unfold process_dataframe at hpd
    cases ht : List.transpose g with
    | nil => rw [ht] at hpd; cases hpd
    | cons r0 rest1 =>
      cases rest1 with
      | nil => rw [ht] at hpd; cases hpd
      | cons r1 rest2 =>
        cases rest2 with
        | nil => rw [ht] at hpd; cases hpd
        | cons r2 rest =>
          rw [ht] at hpd
          simp only [Option.some.injEq, Prod.mk.injEq] at hpd
          obtain ⟨h1, h2⟩ := hpd
          subst h1
          subst h2
          refine ⟨by simp, rfl, rfl⟩

/-- Witness for C7 on concrete documents: a one-table document is classified
as the single-group layout, a three-table one as the three-group layout, the
well-formed table splits into its two halves, the loop collects them, and
the aggregate dict holds the collected value of the label "Status". -/
theorem C7_subtable_classification_witness :
    (subtableCount [goodGrid] = 1 ∧
      processedTables [goodGrid] = [goodGrid].take 1) ∧
    (subtableCount data3 = 3 ∧ processedTables data3 = data3) ∧
    (3 ≤ (List.transpose goodGrid).length ∧
      (List.transpose goodGrid).take 2 = d1W.columns :: d1W.rows ∧
      (List.transpose goodGrid).drop 2 = d2W.columns :: d2W.rows) ∧
    framesUpTo data3 (subtableCount data3) =
      Except.ok ((data3.take (subtableCount data3)).flatMap framesOf) ∧
    dGoodAgg "Status" =
      lastVal ((framesOf goodGrid).flatMap framePairs) "Status" :=
  ⟨(C7_subtable_classification [goodGrid] goodGrid d1W d2W [] emptyDict
      "Status").1 (by decide) (by decide),
   (C7_subtable_classification data3 goodGrid d1W d2W [] emptyDict
      "Status").2.1 (by decide),
   (C7_subtable_classification [goodGrid] goodGrid d1W d2W [] emptyDict
      "Status").2.2.1 (by decide),
   (C7_subtable_classification data3 goodGrid d1W d2W [] emptyDict
      "Status").2.2.2.1 (by decide),
   (C7_subtable_classification [goodGrid] goodGrid d1W d2W
      (framesOf goodGrid) dGoodAgg "Status").2.2.2.2 rfl⟩

/-- Counterexample to claim C2 as stated: a document with no parseable table
makes `pd.read_html` raise ValueError, which `process_record` does not
catch; the exception aborts the batch and the whole run (the run returns
interrupted, not completed), contradicting "reports failure for that
document only" and "does not abort the batch or the run". -/
theorem C2_extraction_failure_counterexample :
    process_record testScraper envNoTables "1" =
      Except.error PyExc.valueError ∧
    gather_with_concurrency testScraper envNoTables dfOne (some dfOne) =
      RunResult.interrupted PyExc.valueError
        { mem := dfOne, disk := some dfOne } := by decide

/-- Claim C2 (amended): only failures inside an individual sub-table's
reshape are isolated — the sub-table is skipped and the record still
receives a full all-sentinel field map, so processing continues — while a
document-level parse failure (e.g. no parseable table) propagates out of
`process_record`, and a batch containing such a record aborts the run
unflushed via the `except` arm; the failing record's row itself is left
unchanged. -/
theorem C2_extraction_failure_isolation (s : Scraper) (env : FetchEnv)
    (idv txt : String) (st0 : Nat) (g : Grid) (rest : List Grid) (e : PyExc)
    (total b : Nat) (starts : List Nat) (stt : RunState) (mem2 : DF) :
    (env.http idv = HttpResult.ok st0 txt →
      env.parse txt = Except.ok (g :: rest) →
      rest.length ≤ 1 →
      process_dataframe g = none →
      process_record s env idv =
        Except.ok (s.columns.map (fun c => (c, "N/A")))) ∧
    (env.http idv = HttpResult.ok st0 txt →
      env.parse txt = Except.error e →
      process_record s env idv = Except.error e) ∧
    (runBatch s env stt.mem (batchWindow b total) = (mem2, some e) →
      runBatches s env total (b :: starts) stt =
        RunResult.interrupted e { mem := mem2, disk := stt.disk }) := by
  refine ⟨?_, ?_, ?_⟩
  · intro hh hp hlen hpd
    have hc : subtableCount (g :: rest) = 1 := by
      unfold subtableCount
      rw [if_pos (by simp; omega)]
    have hf : framesUpTo (g :: rest) 1 = Except.ok [] := by
      rw [framesUpTo_ok (g :: rest) 1 (by simp)]
      simp [framesOf, hpd]
    unfold process_record fetch_html
    rw [hh]
    simp only [bind, Except.bind, hp, buildDict, hc, hf, aggFrames,
      List.foldlM_nil]
    rfl
  · intro hh hp
    unfold process_record fetch_html
    rw [hh]
    simp only [bind, Except.bind, hp]
  · intro hrb
    unfold runBatches
    rw [hrb]

/-- Witness for C2 (amended) on concrete inputs: the malformed sub-table is
skipped and yields an all-sentinel record, the table-less document raises
ValueError out of the extractor, and the one-row batch containing it turns
the whole run into an interrupted, unflushed exit. -/
theorem C2_extraction_failure_isolation_witness :
    process_record testScraper envBadShape "1" =
      Except.ok (testScraper.columns.map (fun c => (c, "N/A"))) ∧
    process_record testScraper envNoTables "1" =
      Except.error PyExc.valueError ∧
    runBatches testScraper envNoTables 1 (0 :: [])
      { mem := dfOne, disk := some dfOne } =
      RunResult.interrupted PyExc.valueError
        { mem := dfOne, disk := some dfOne } :=
  ⟨(C2_extraction_failure_isolation testScraper envBadShape "1" "docA" 200
      badShapeGrid [] PyExc.valueError 1 0 []
      { mem := dfOne, disk := some dfOne } dfOne).1 rfl rfl (by decide)
      (by decide),
   (C2_extraction_failure_isolation testScraper envNoTables "1" "docA" 200
      badShapeGrid [] PyExc.valueError 1 0 []
      { mem := dfOne, disk := some dfOne } dfOne).2.1 rfl rfl,
   (C2_extraction_failure_isolation testScraper envNoTables "1" "docA" 200
      badShapeGrid [] PyExc.valueError 1 0 []
      { mem := dfOne, disk := some dfOne } dfOne).2.2 (by decide)⟩

end Scrape
